import Mathlib

/-!
Shallow embedding of the GPA & Graduation Planner core (src/main.py, src/schemas.py):
grade table, GPA engine, CGPA engine, honors classifier, projection engine and the
heuristic advice generator, with theorems checking the claims of the spec.
Numeric values are modelled as exact rationals; the Python `round(x, 3)` is modelled
by `round3`.
-/

namespace GpaPlanner

/-- The closed grade alphabet `GradeLetter` (the six letters A to F)
from src/schemas.py. -/
inductive Grade
  | A | B | C | D | E | F
  deriving DecidableEq, Repr

/-- `GRADE_POINTS` table from src/schemas.py. -/
def GRADE_POINTS : Grade → ℚ
  | .A => 4
  | .B => 3
  | .C => 2
  | .D => 1
  | .E => 1/2
  | .F => 0

/-- The letter of a grade, as rendered in Python messages. -/
def gradeLetter : Grade → String
  | .A => "A"
  | .B => "B"
  | .C => "C"
  | .D => "D"
  | .E => "E"
  | .F => "F"

/-- `grade_to_points` from src/main.py. On schema-validated data the grade is
either absent or a member of the closed `GradeLetter` set, so the
invalid-grade branch of the Python function is unreachable and the lookup
is total on `Grade`. -/
def grade_to_points : Option Grade → Option ℚ
  | none => none
  | some g => some (GRADE_POINTS g)

/-- `Course` model from src/schemas.py (`code` is stored already normalized by
the `normalize_code` validator; see `mkCourse`). -/
structure Course where
  code : String
  name : String
  credit_hours : ℚ
  grade : Option Grade
  semester : Option ℤ
  category : Option String
  deriving DecidableEq, Repr

/-- The `normalize_code` validator of `Course` in src/schemas.py:
`v.strip().upper()`. Modelled character-wise: whitespace is dropped from both
ends and every letter is uppercased (course codes are ASCII). -/
def normalize_code (v : String) : String :=
  ⟨(((v.data.dropWhile Char.isWhitespace).reverse.dropWhile
      Char.isWhitespace).reverse).map Char.toUpper⟩

/-- Constructing a `Course` applies the `normalize_code` validator to `code`,
as pydantic does at model construction. -/
def mkCourse (code name : String) (credit_hours : ℚ) (grade : Option Grade)
    (semester : Option ℤ) (category : Option String) : Course :=
  ⟨normalize_code code, name, credit_hours, grade, semester, category⟩

/-- `SemesterRecord` from src/schemas.py. -/
structure SemesterRecord where
  term : String
  courses : List Course
  deriving DecidableEq, Repr

/-- `UserProfile` from src/schemas.py. -/
structure UserProfile where
  user_id : String
  name : String
  program : String
  target_class : Option String
  deriving DecidableEq, Repr

/-- `GPACalcResponse` from src/schemas.py. -/
structure GPACalcResponse where
  gpa : ℚ
  total_points : ℚ
  total_credits : ℚ
  deriving DecidableEq, Repr

/-- `CGPAResponse` from src/schemas.py. -/
structure CGPAResponse where
  cgpa : ℚ
  gpa_by_semester : List GPACalcResponse
  deriving DecidableEq, Repr

/-- `ProjectionResponse` from src/schemas.py. -/
structure ProjectionResponse where
  target_class : String
  target_cgpa : ℚ
  needed_avg_gpa : ℚ
  message : String
  deriving DecidableEq, Repr

/-- `AdviceResponse` from src/schemas.py. -/
structure AdviceResponse where
  insights : List String
  recommendations : List String
  risk_courses : List String
  deriving DecidableEq, Repr

/-- The `HTTPException(status_code=400, ...)` validation failures raised by the
core functions in src/main.py, keyed by kind and offending value. -/
inductive Err
  | invalidGrade (grade : String)
  | duplicateCourse (code : String)
  | invalidCreditHours (code : String)
  | unknownTargetClass (target_class : String)
  deriving DecidableEq, Repr

/-- The Python `round(x, 3)`. (Ties round half-up here; no claim depends on a
half-way case.) -/
def round3 (x : ℚ) : ℚ := (round (x * 1000) : ℤ) / 1000

/-- The loop of `compute_gpa` in src/main.py: `seen` is the set of codes met so
far, `total_points`/`total_credits` the accumulators.  The duplicate check and
`seen.add` happen before the missing-grade skip; the credit-hours check only
runs for graded courses. -/
def computeGpaAux (seen : List String) (total_points total_credits : ℚ) :
    List Course → Except Err GPACalcResponse
  | [] =>
      .ok ⟨if 0 < total_credits then round3 (total_points / total_credits) else 0,
           round3 total_points, round3 total_credits⟩
  | c :: rest =>
      if c.code ∈ seen then .error (.duplicateCourse c.code)
      else
        match grade_to_points c.grade with
        | none => computeGpaAux (c.code :: seen) total_points total_credits rest
        | some pts =>
            if c.credit_hours ≤ 0 ∨ 10 < c.credit_hours then
              .error (.invalidCreditHours c.code)
            else
              computeGpaAux (c.code :: seen) (total_points + pts * c.credit_hours)
                (total_credits + c.credit_hours) rest

/-- `compute_gpa` from src/main.py. -/
def compute_gpa (courses : List Course) : Except Err GPACalcResponse :=
  computeGpaAux [] 0 0 courses

/-- The loop of `compute_cgpa` in src/main.py, accumulating the per-semester
results and the aggregate points/credits. -/
def computeCgpaAux (gpas : List GPACalcResponse) (agg_points agg_credits : ℚ) :
    List SemesterRecord → Except Err CGPAResponse
  | [] =>
      .ok ⟨if 0 < agg_credits then round3 (agg_points / agg_credits) else 0, gpas⟩
  | sem :: rest =>
      match compute_gpa sem.courses with
      | .error e => .error e
      | .ok res =>
          computeCgpaAux (gpas ++ [res]) (agg_points + res.total_points)
            (agg_credits + res.total_credits) rest

/-- `compute_cgpa` from src/main.py. -/
def compute_cgpa (semesters : List SemesterRecord) : Except Err CGPAResponse :=
  computeCgpaAux [] 0 0 semesters

/-- `HONORS_BANDS` from src/schemas.py, in dict insertion order (descending
thresholds). -/
def HONORS_BANDS : List (String × ℚ) :=
  [("First Class Honors", 37/10),
   ("Second Class Upper", 33/10),
   ("Second Class Lower", 27/10),
   ("Pass", 2)]

/-- The loop of `classify_honors`: first label whose threshold the input meets. -/
def classifyAux : List (String × ℚ) → ℚ → String
  | [], _ => "Fail"
  | (label, threshold) :: rest, cgpa =>
      if cgpa ≥ threshold then label else classifyAux rest cgpa

/-- `classify_honors` from src/main.py. -/
def classify_honors (cgpa : ℚ) : String := classifyAux HONORS_BANDS cgpa

/-- The "already determined" message of `project_needed_average`. -/
def alreadyDeterminedMsg : String :=
  "No remaining credits. Your final classification is already determined."

/-- The "unreachable target" message variant of `project_needed_average`. -/
def unreachableMsg (target_class : String) : String :=
  "Even 4.0 average can\x27t reach " ++ target_class ++
    ". Aim for the highest possible and consult advisor."

/-- The ordinary "you need an average GPA of ..." message variant of
`project_needed_average`. -/
def neededMsg (needed_avg_gpa : ℚ) (target_class : String) : String :=
  "You need an average GPA of " ++ toString needed_avg_gpa ++
    " across the remaining credits to achieve " ++ target_class ++ "."

/-- `project_needed_average` from src/main.py: validate the target label, run
`compute_gpa` on the completed courses, early-exit when no credits remain,
otherwise solve for the needed average, clamped to [0, 4] and rounded; the
message is chosen by comparing the (already clamped) value with 4.0. -/
def project_needed_average (completed : List Course) (remaining_credits : ℚ)
    (target_class : String) : Except Err ProjectionResponse :=
  match HONORS_BANDS.lookup target_class with
  | none => .error (.unknownTargetClass target_class)
  | some threshold =>
      match compute_gpa completed with
      | .error e => .error e
      | .ok current =>
          if remaining_credits ≤ 0 then
            .ok ⟨target_class, threshold, 0, alreadyDeterminedMsg⟩
          else
            let completed_credits := current.total_credits
            let completed_points := current.total_points
            let target_cgpa := threshold
            let total_credits_final := completed_credits + remaining_credits
            let required_points_remaining :=
              target_cgpa * total_credits_final - completed_points
            let needed_avg_gpa :=
              round3 (max 0 (min 4 (required_points_remaining / remaining_credits)))
            let msg :=
              if needed_avg_gpa > 4 then unreachableMsg target_class
              else neededMsg needed_avg_gpa target_class
            .ok ⟨target_class, target_cgpa, needed_avg_gpa, msg⟩

/-- The "declining performance" insight of `generate_advice`. -/
def declineMsg : String :=
  "Recent semester GPA dropped significantly. Consider workload balance and support resources."

/-- The "strong improvement" insight of `generate_advice`. -/
def improveMsg : String :=
  "Great improvement in the latest semester. Keep leveraging what worked."

/-- The semester-trend step of `generate_advice`: when at least two per-semester
GPAs exist, compare the last two (`sem_gpas[-1]` against `sem_gpas[-2]`); the
`if`/`elif` appends at most one insight. -/
def trendInsight (sem_gpas : List ℚ) : Option String :=
  match sem_gpas.reverse with
  | locLast :: locPrev :: _ =>
      if locLast < locPrev - 1/5 then some declineMsg
      else if locLast > locPrev + 1/5 then some improveMsg
      else none
  | _ => none

/-- `sem_gpas` in `generate_advice`: GPAs of the semesters with nonzero
credits, in input order. -/
def semGpas (cgpa_info : CGPAResponse) : List ℚ :=
  (cgpa_info.gpa_by_semester.filter (fun r => 0 < r.total_credits)).map
    GPACalcResponse.gpa

/-- The graded courses of a semester history, flattened in order — the list
`[c for s in semesters for c in s.courses if c.grade is not None]` used by
`generate_advice` for totals and for the projection call. -/
def gradedCourses (semesters : List SemesterRecord) : List Course :=
  (semesters.flatMap SemesterRecord.courses).filter (fun c => c.grade.isSome)

/-- Risk label `f"{c.code} ({c.grade})"`. -/
def riskLabel (c : Course) (g : Grade) : String :=
  c.code ++ " (" ++ gradeLetter g ++ ")"

/-- The weak-course pass of `generate_advice`: graded courses whose point value
is strictly below 2.0, in order. -/
def riskCoursesOf (semesters : List SemesterRecord) : List String :=
  (gradedCourses semesters).filterMap (fun c =>
    match c.grade with
    | some g => if GRADE_POINTS g < 2 then some (riskLabel c g) else none
    | none => none)

/-- `category_scores.setdefault(key, []).append(v)` on an insertion-ordered
association list. -/
def addScore : List (String × List ℚ) → String → ℚ → List (String × List ℚ)
  | [], k, v => [(k, [v])]
  | (k2, vs) :: rest, k, v =>
      if k2 = k then (k2, vs ++ [v]) :: rest else (k2, vs) :: addScore rest k v

/-- The `category_scores` dictionary of `generate_advice`: for each graded
course with a truthy (non-empty) category, append its grade points under the
lowercased category. -/
def categoryScores (semesters : List SemesterRecord) : List (String × List ℚ) :=
  (gradedCourses semesters).foldl
    (fun m c =>
      match c.category with
      | some cat =>
          if cat ≠ "" then
            match c.grade with
            | some g => addScore m cat.toLower (GRADE_POINTS g)
            | none => m
          else m
      | none => m)
    []

/-- The category-weakness insight text. -/
def categoryInsight (cat : String) : String :=
  "Performance is weaker in " ++ cat ++
    "-related units. Prioritize foundational practice and clinics."

/-- The category-weakness pass of `generate_advice`: categories whose mean
point value is below 2.3. -/
def categoryInsights (semesters : List SemesterRecord) : List String :=
  (categoryScores semesters).filterMap (fun p =>
    if p.2 ≠ [] ∧ p.2.sum / (p.2.length : ℚ) < 23/10 then
      some (categoryInsight p.1)
    else none)

/-- The target used by `generate_advice`: `profile.target_class or "Second
Class Upper"` (Python truthiness: `None` and the empty string both fall back to
the default). -/
def adviceTarget (profile : UserProfile) : String :=
  match profile.target_class with
  | some t => if t ≠ "" then t else "Second Class Upper"
  | none => "Second Class Upper"

/-- The leading recommendation naming up to five at-risk courses. -/
def riskRecommendation (risk_courses : List String) : String :=
  "Focus on re-assessment of weak units: " ++
    String.intercalate ", " (risk_courses.take 5) ++
    (if risk_courses.length > 5 then "..." else "")

/-- The four fixed generic study recommendations of `generate_advice`. -/
def fixedRecommendations : List String :=
  ["Adopt spaced repetition for theory-heavy units (25-30 minute intervals).",
   "Schedule weekly review blocks and use past papers for targeted practice.",
   "Form a small study group for challenging categories to explain concepts out loud.",
   "Meet course lecturers/TAs early for feedback on weak areas."]

/-- `generate_advice` from src/main.py: CGPA and trend, weak courses and
categories, then a projection over an estimated `max(0, 180 - completed)`
remaining credit load, run on the flattened graded course list. -/
def generate_advice (profile : UserProfile) (semesters : List SemesterRecord) :
    Except Err AdviceResponse :=
  match compute_cgpa semesters with
  | .error e => .error e
  | .ok cgpa_info =>
      let sem_gpas := semGpas cgpa_info
      let trend := (trendInsight sem_gpas).toList
      let risk_courses := riskCoursesOf semesters
      let catIns := categoryInsights semesters
      let target := adviceTarget profile
      let total_credits := ((gradedCourses semesters).map Course.credit_hours).sum
      let remaining_estimate := max 0 (180 - total_credits)
      match project_needed_average (gradedCourses semesters) remaining_estimate target with
      | .error e => .error e
      | .ok proj =>
          let insights := trend ++ catIns ++ [proj.message]
          let recommendations :=
            (if risk_courses ≠ [] then [riskRecommendation risk_courses] else []) ++
              fixedRecommendations
          .ok ⟨insights, recommendations, risk_courses⟩

/-! ## Derived notions used by the theorems -/

/-- The course codes of a list, in order. -/
def codes (l : List Course) : List String := l.map Course.code

/-- The pydantic `Course.credit_hours` constraint `gt=0, le=10`, required here
only for graded courses (ungraded ones are skipped before the check in
`compute_gpa`). -/
def validCredits (l : List Course) : Prop :=
  ∀ c ∈ l, c.grade.isSome → 0 < c.credit_hours ∧ c.credit_hours ≤ 10

/-- Sum of `points(grade) * credit_hours` over the graded courses of a list. -/
def gradedPoints (l : List Course) : ℚ :=
  (l.filterMap (fun c => (grade_to_points c.grade).map (· * c.credit_hours))).sum

/-- Sum of credit hours over the graded courses of a list. -/
def gradedCredits (l : List Course) : ℚ :=
  ((l.filter (fun c => c.grade.isSome)).map Course.credit_hours).sum

/-- The per-semester validity needed for `compute_cgpa` to succeed: unique
codes within each semester and schema-valid credit hours. -/
def validSemesters (semesters : List SemesterRecord) : Prop :=
  ∀ s ∈ semesters, (codes s.courses).Nodup ∧ validCredits s.courses

instance (l : List Course) : Decidable (validCredits l) := by
  unfold validCredits
  infer_instance

instance (semesters : List SemesterRecord) : Decidable (validSemesters semesters) := by
  unfold validSemesters validCredits
  infer_instance

/-! ## GPA engine lemmas -/

theorem computeGpaAux_ok (l : List Course) :
    ∀ (seen : List String) (tp tc : ℚ),
      (∀ c ∈ l, c.code ∉ seen) → (codes l).Nodup → validCredits l →
      computeGpaAux seen tp tc l =
        .ok ⟨if 0 < tc + gradedCredits l then
               round3 ((tp + gradedPoints l) / (tc + gradedCredits l)) else 0,
             round3 (tp + gradedPoints l), round3 (tc + gradedCredits l)⟩ := by
  induction l with
  | nil =>
      intro seen tp tc _ _ _
      simp [computeGpaAux, gradedPoints, gradedCredits]
  | cons c rest ih =>
      intro seen tp tc hseen hnodup hvalid
      simp only [codes, List.map_cons, List.nodup_cons] at hnodup
      have hc : c.code ∉ seen := hseen c (List.mem_cons_self c rest)
      have hrestSeen : ∀ c2 ∈ rest, c2.code ∉ (c.code :: seen) := by
        intro c2 h2
        simp only [List.mem_cons, not_or]
        refine ⟨?_, hseen c2 (List.mem_cons_of_mem c h2)⟩
        intro hEq
        exact hnodup.1 (hEq ▸ List.mem_map_of_mem Course.code h2)
      have hrestNodup : (codes rest).Nodup := hnodup.2
      have hrestValid : validCredits rest := fun c2 h2 => hvalid c2 (List.mem_cons_of_mem c h2)
      cases hg : c.grade with
      | none =>
          rw [computeGpaAux, if_neg hc]
          simp only [hg, grade_to_points]
          rw [ih (c.code :: seen) tp tc hrestSeen hrestNodup hrestValid]
          simp [gradedPoints, gradedCredits, hg, grade_to_points]
      | some g =>
          have hch := hvalid c (List.mem_cons_self c rest) (by simp [hg])
          have hok : ¬ (c.credit_hours ≤ 0 ∨ 10 < c.credit_hours) := by
            push_neg
            exact ⟨hch.1, hch.2⟩
          rw [computeGpaAux, if_neg hc]
          simp only [hg, grade_to_points]
          rw [if_neg hok]
          rw [ih (c.code :: seen) (tp + GRADE_POINTS g * c.credit_hours)
                (tc + c.credit_hours) hrestSeen hrestNodup hrestValid]
          simp [gradedPoints, gradedCredits, hg, grade_to_points, add_assoc]

theorem compute_gpa_ok (l : List Course)
    (hnodup : (codes l).Nodup) (hvalid : validCredits l) :
    compute_gpa l =
      .ok ⟨if 0 < gradedCredits l then round3 (gradedPoints l / gradedCredits l) else 0,
           round3 (gradedPoints l), round3 (gradedCredits l)⟩ := by
  have h := computeGpaAux_ok l [] 0 0 (by simp) hnodup hvalid
  simpa [compute_gpa] using h

theorem computeGpaAux_dup (l : List Course) :
    ∀ (seen : List String) (tp tc : ℚ),
      validCredits l → (¬ (codes l).Nodup ∨ ∃ c ∈ l, c.code ∈ seen) →
      ∃ d, computeGpaAux seen tp tc l = .error (.duplicateCourse d) := by
  induction l with
  | nil =>
      intro seen tp tc _ h
      rcases h with h | ⟨c, hc, _⟩
      · simp [codes] at h
      · simp at hc
  | cons c rest ih =>
      intro seen tp tc hvalid h
      by_cases hc : c.code ∈ seen
      · exact ⟨c.code, by rw [computeGpaAux, if_pos hc]⟩
      · have hrestValid : validCredits rest :=
          fun c2 h2 => hvalid c2 (List.mem_cons_of_mem c h2)
        have hnext : ¬ (codes rest).Nodup ∨ ∃ c2 ∈ rest, c2.code ∈ (c.code :: seen) := by
          rcases h with h | ⟨c2, hc2, hmem⟩
          · simp only [codes, List.map_cons, List.nodup_cons, not_and] at h
            by_cases hr : ((rest.map Course.code)).Nodup
            · have hcr : c.code ∈ rest.map Course.code :=
                not_not.mp (fun hno => h hno hr)
              obtain ⟨c2, h2, hEq⟩ := List.mem_map.mp hcr
              exact Or.inr ⟨c2, h2, by simp [hEq]⟩
            · exact Or.inl (by simpa [codes] using hr)
          · rcases List.mem_cons.mp hc2 with rfl | h2
            · exact absurd hmem hc
            · exact Or.inr ⟨c2, h2, List.mem_cons_of_mem _ hmem⟩
        cases hg : c.grade with
        | none =>
            obtain ⟨d, hd⟩ := ih (c.code :: seen) tp tc hrestValid hnext
            refine ⟨d, ?_⟩
            rw [computeGpaAux, if_neg hc]
            simp only [hg, grade_to_points]
            exact hd
        | some g =>
            have hch := hvalid c (List.mem_cons_self c rest) (by simp [hg])
            have hok : ¬ (c.credit_hours ≤ 0 ∨ 10 < c.credit_hours) := by
              push_neg
              exact ⟨hch.1, hch.2⟩
            obtain ⟨d, hd⟩ := ih (c.code :: seen) (tp + GRADE_POINTS g * c.credit_hours)
              (tc + c.credit_hours) hrestValid hnext
            refine ⟨d, ?_⟩
            rw [computeGpaAux, if_neg hc]
            simp only [hg, grade_to_points]
            rw [if_neg hok]
            exact hd

theorem compute_gpa_dup (l : List Course)
    (hvalid : validCredits l) (hdup : ¬ (codes l).Nodup) :
    ∃ d, compute_gpa l = .error (.duplicateCourse d) := by
  obtain ⟨d, hd⟩ := computeGpaAux_dup l [] 0 0 hvalid (Or.inl hdup)
  exact ⟨d, by simpa [compute_gpa] using hd⟩

/-! ## CGPA engine lemmas -/

theorem computeCgpaAux_ok_exists (semesters : List SemesterRecord) :
    ∀ (gpas : List GPACalcResponse) (p c : ℚ),
      validSemesters semesters →
      ∃ r, computeCgpaAux gpas p c semesters = .ok r := by
  induction semesters with
  | nil => intro gpas p c _; exact ⟨_, rfl⟩
  | cons sem rest ih =>
      intro gpas p c hvalid
      have hsem := hvalid sem (List.mem_cons_self sem rest)
      have hres := compute_gpa_ok sem.courses hsem.1 hsem.2
      have hrest : validSemesters rest :=
        fun s hs => hvalid s (List.mem_cons_of_mem sem hs)
      obtain ⟨r, hr⟩ := ih (gpas ++ [_]) (p + _) (c + _) hrest
      exact ⟨r, by rw [computeCgpaAux, hres]; exact hr⟩

theorem computeCgpaAux_cgpa (semesters : List SemesterRecord) :
    ∀ (gpas : List GPACalcResponse) (p c : ℚ) (r : CGPAResponse),
      computeCgpaAux gpas p c semesters = .ok r →
      ∃ extra, r.gpa_by_semester = gpas ++ extra ∧
        r.cgpa =
          if 0 < c + (extra.map GPACalcResponse.total_credits).sum then
            round3 ((p + (extra.map GPACalcResponse.total_points).sum) /
              (c + (extra.map GPACalcResponse.total_credits).sum))
          else 0 := by
  induction semesters with
  | nil =>
      intro gpas p c r hr
      rw [computeCgpaAux] at hr
      refine ⟨[], ?_, ?_⟩ <;> cases hr <;> simp
  | cons sem rest ih =>
      intro gpas p c r hr
      rw [computeCgpaAux] at hr
      cases hres : compute_gpa sem.courses with
      | error e => rw [hres] at hr; cases hr
      | ok res =>
          rw [hres] at hr
          obtain ⟨extra, hgpas, hcgpa⟩ := ih (gpas ++ [res])
            (p + res.total_points) (c + res.total_credits) r hr
          refine ⟨res :: extra, by simpa using hgpas, ?_⟩
          rw [hcgpa]
          simp [add_assoc]

theorem compute_cgpa_cgpa (semesters : List SemesterRecord) (r : CGPAResponse)
    (hr : compute_cgpa semesters = .ok r) :
    r.cgpa =
      if 0 < (r.gpa_by_semester.map GPACalcResponse.total_credits).sum then
        round3 ((r.gpa_by_semester.map GPACalcResponse.total_points).sum /
          (r.gpa_by_semester.map GPACalcResponse.total_credits).sum)
      else 0 := by
  obtain ⟨extra, hgpas, hcgpa⟩ := computeCgpaAux_cgpa semesters [] 0 0 r hr
  rw [hgpas, hcgpa]
  simp

/-! ## Claim theorems -/

/-- C4: `classify_honors` walks the descending-threshold table and returns the
first label whose threshold is ≤ the input, the sentinel "Fail" below all
thresholds; it is total on ℚ, and at the exact threshold of a band it returns that
band, not the band below. -/
theorem classify_honors_bands (x : ℚ) :
    (37/10 ≤ x → classify_honors x = "First Class Honors") ∧
    (33/10 ≤ x → x < 37/10 → classify_honors x = "Second Class Upper") ∧
    (27/10 ≤ x → x < 33/10 → classify_honors x = "Second Class Lower") ∧
    (2 ≤ x → x < 27/10 → classify_honors x = "Pass") ∧
    (x < 2 → classify_honors x = "Fail") := by
  simp only [classify_honors, HONORS_BANDS, classifyAux]
  refine ⟨?_, ?_, ?_, ?_, ?_⟩ <;> intros <;> split_ifs <;> first | rfl | linarith

/-- C4 witness: at the exact First Class threshold 3.70 the classifier returns
"First Class Honors" (that band, not the band below). -/
theorem classify_honors_bands_witness :
    classify_honors (37/10) = "First Class Honors" :=
  (classify_honors_bands (37/10)).1 (le_refl _)

/-- C8: for a graded course, `compute_gpa` fails with `InvalidCreditHours`
exactly when `credit_hours ≤ 0` or `credit_hours > 10`; exactly 10 is
accepted, exactly 0 is rejected, and 10.0001 is rejected. -/
theorem compute_gpa_credit_hours_boundary :
    (∀ (code name : String) (ch : ℚ) (g : Grade) (s : Option ℤ) (k : Option String),
        (compute_gpa [⟨code, name, ch, some g, s, k⟩] =
            .error (.invalidCreditHours code) ↔ (ch ≤ 0 ∨ 10 < ch)) ∧
        ((∃ r, compute_gpa [⟨code, name, ch, some g, s, k⟩] = .ok r) ↔
          (0 < ch ∧ ch ≤ 10))) ∧
    compute_gpa [⟨"AB", "ab", 10, some .A, none, none⟩] = .ok ⟨4, 40, 10⟩ ∧
    compute_gpa [⟨"AB", "ab", 0, some .A, none, none⟩] =
      .error (.invalidCreditHours "AB") ∧
    compute_gpa [⟨"AB", "ab", 100001/10000, some .A, none, none⟩] =
      .error (.invalidCreditHours "AB") := by
  refine ⟨?_, ?_, ?_, ?_⟩
  · intro code name ch g s k
    have hsplit : (0 < ch ∧ ch ≤ 10) ↔ ¬ (ch ≤ 0 ∨ 10 < ch) := by
      constructor
      · rintro ⟨h1, h2⟩ (h3 | h3) <;> linarith
      · intro h
        push_neg at h
        exact h
    by_cases hch : ch ≤ 0 ∨ 10 < ch
    · constructor
      · simp [compute_gpa, computeGpaAux, grade_to_points, hch]
      · simp [compute_gpa, computeGpaAux, grade_to_points, hch, hsplit]
    · constructor
      · simp [compute_gpa, computeGpaAux, grade_to_points, hch]
      · simp [compute_gpa, computeGpaAux, grade_to_points, hch, hsplit]
  · simp only [compute_gpa, computeGpaAux, grade_to_points, GRADE_POINTS]
    norm_num [round3, round_eq]
  · simp [compute_gpa, computeGpaAux, grade_to_points]
  · simp only [compute_gpa, computeGpaAux, grade_to_points]
    norm_num

/-- C5: with a valid target, a duplicate-free schema-valid completed list and
`remaining_credits ≤ 0`, `project_needed_average` returns the target
threshold as `target_cgpa`, `needed_avg_gpa = 0.0` and the "already
determined" message, regardless of current standing. -/
theorem project_needed_average_early_exit (completed : List Course)
    (remaining_credits : ℚ) (target_class : String) (threshold : ℚ)
    (ht : HONORS_BANDS.lookup target_class = some threshold)
    (hnodup : (codes completed).Nodup) (hvalid : validCredits completed)
    (hrc : remaining_credits ≤ 0) :
    project_needed_average completed remaining_credits target_class =
      .ok ⟨target_class, threshold, 0, alreadyDeterminedMsg⟩ := by
  rw [project_needed_average, ht, compute_gpa_ok completed hnodup hvalid]
  simp [hrc]

/-- C5 witness: a concrete completed list with nonzero standing, zero
remaining credits and target "Pass". -/
theorem project_needed_average_early_exit_witness :
    project_needed_average [mkCourse "A" "Aa" 3 (some .A) none none] 0 "Pass" =
      .ok ⟨"Pass", 2, 0, alreadyDeterminedMsg⟩ :=
  project_needed_average_early_exit [mkCourse "A" "Aa" 3 (some .A) none none]
    0 "Pass" 2 (by decide) (by decide) (by decide) (le_refl 0)

theorem project_dup_of_dup_codes (completed : List Course)
    (remaining_credits : ℚ) (target_class : String)
    (ht : (HONORS_BANDS.lookup target_class).isSome)
    (hvalid : validCredits completed)
    (hdup : ¬ (codes completed).Nodup) :
    ∃ d, project_needed_average completed remaining_credits target_class =
      .error (.duplicateCourse d) := by
  obtain ⟨threshold, hth⟩ := Option.isSome_iff_exists.mp ht
  obtain ⟨d, hd⟩ := compute_gpa_dup completed hvalid hdup
  exact ⟨d, by rw [project_needed_average, hth, hd]⟩

/-- C10: a projection request whose completed list repeats a normalized code,
with a valid target, fails with `DuplicateCourse` instead of returning a
projection, because `project_needed_average` reuses `compute_gpa` on the
completed list. -/
theorem project_needed_average_duplicate (completed : List Course)
    (remaining_credits : ℚ) (target_class : String)
    (ht : (HONORS_BANDS.lookup target_class).isSome)
    (hvalid : validCredits completed)
    (hdup : ¬ (codes completed).Nodup) :
    ∃ d, project_needed_average completed remaining_credits target_class =
      .error (.duplicateCourse d) :=
  project_dup_of_dup_codes completed remaining_credits target_class ht hvalid hdup

/-- C10 witness: duplicated code "DUP" with valid target "Second Class
Upper". -/
theorem project_needed_average_duplicate_witness :
    ∃ d, project_needed_average
        [mkCourse "DUP" "Xx" 3 (some .A) none none,
         mkCourse "DUP" "Yy" 3 (some .B) none none] 9 "Second Class Upper" =
      .error (.duplicateCourse d) :=
  project_needed_average_duplicate _ 9 "Second Class Upper"
    (by decide) (by decide) (by decide)

/-- C6: two courses whose raw codes differ only by case/whitespace are
normalized to the same code at construction, so `compute_gpa` fails with
`DuplicateCourse` naming the normalized code. -/
theorem compute_gpa_normalized_duplicate (u v n1 n2 : String) (ch1 ch2 : ℚ)
    (g1 g2 : Option Grade) (s1 s2 : Option ℤ) (k1 k2 : Option String)
    (hnorm : normalize_code u = normalize_code v)
    (hch : g1.isSome → 0 < ch1 ∧ ch1 ≤ 10) :
    compute_gpa [mkCourse u n1 ch1 g1 s1 k1, mkCourse v n2 ch2 g2 s2 k2] =
      .error (.duplicateCourse (normalize_code v)) := by
  cases g1 with
  | none => simp [compute_gpa, computeGpaAux, mkCourse, grade_to_points, hnorm]
  | some g =>
      have hb := hch (by simp)
      have hok : ¬ (ch1 ≤ 0 ∨ 10 < ch1) := by
        push_neg
        exact hb
      simp [compute_gpa, computeGpaAux, mkCourse, grade_to_points, hnorm, hok]

/-- C6 witness: raw codes " t1 " and "T1" normalize to the same code "T1" and
trigger the duplicate error. -/
theorem compute_gpa_normalized_duplicate_witness :
    compute_gpa [mkCourse " t1 " "Aa" 3 (some .A) none none,
                 mkCourse "T1" "Bb" 3 (some .B) none none] =
      .error (.duplicateCourse (normalize_code "T1")) :=
  compute_gpa_normalized_duplicate " t1 " "T1" "Aa" "Bb" 3 3
    (some .A) (some .B) none none none none (by decide) (by decide)

/-- C7 (amended): for duplicate-free, schema-valid course lists, `compute_gpa`
succeeds and its `total_points`/`total_credits` are the 3-decimal roundings of
the sums over the graded courses only; ungraded courses contribute zero
credits and zero points and cause no failure of any kind. -/
theorem compute_gpa_graded_totals (l : List Course)
    (hnodup : (codes l).Nodup) (hvalid : validCredits l) :
    compute_gpa l =
      .ok ⟨if 0 < gradedCredits l then round3 (gradedPoints l / gradedCredits l) else 0,
           round3 (gradedPoints l), round3 (gradedCredits l)⟩ :=
  compute_gpa_ok l hnodup hvalid

/-- C7 witness: a graded 3-credit course plus an ungraded 5-credit course;
the ungraded course is skipped, contributing no credits and no points. -/
theorem compute_gpa_graded_totals_witness :
    compute_gpa [mkCourse "AB" "ab" 3 (some .A) none none,
                 mkCourse "CD" "cd" 5 none none none] =
      .ok ⟨if 0 < gradedCredits [mkCourse "AB" "ab" 3 (some .A) none none,
                                 mkCourse "CD" "cd" 5 none none none] then
             round3 (gradedPoints [mkCourse "AB" "ab" 3 (some .A) none none,
                                   mkCourse "CD" "cd" 5 none none none] /
               gradedCredits [mkCourse "AB" "ab" 3 (some .A) none none,
                              mkCourse "CD" "cd" 5 none none none])
           else 0,
           round3 (gradedPoints [mkCourse "AB" "ab" 3 (some .A) none none,
                                 mkCourse "CD" "cd" 5 none none none]),
           round3 (gradedCredits [mkCourse "AB" "ab" 3 (some .A) none none,
                                  mkCourse "CD" "cd" 5 none none none])⟩ :=
  compute_gpa_graded_totals _ (by decide) (by decide)

/-- C7 counterexample: with the valid credit load 1/3, the returned
`total_credits` is the rounding 0.333, not the exact sum 1/3, so
`total_credits` does not always equal the sum of graded credit hours. -/
theorem compute_gpa_credits_rounding_counterexample :
    compute_gpa [mkCourse "AB" "ab" (1/3) (some .A) none none] =
      .ok ⟨4, 1333/1000, 333/1000⟩ ∧
    gradedCredits [mkCourse "AB" "ab" (1/3) (some .A) none none] = 1/3 ∧
    (333/1000 : ℚ) ≠ 1/3 := by
  refine ⟨?_, ?_, by norm_num⟩
  · simp only [compute_gpa, computeGpaAux, mkCourse, grade_to_points, GRADE_POINTS]
    norm_num [round3, round_eq]
  · simp [gradedCredits, mkCourse]

/-- C3: `compute_cgpa` aggregates credit-weighted across the whole transcript
(sum of per-semester `total_points` over sum of per-semester `total_credits`,
rounded to 3 decimals, 0 when the total credits are zero), and the scenario
S1=[(A,3,A)], S2=[(B,3,B)] yields CGPA 3.5. -/
theorem compute_cgpa_credit_weighted :
    (∀ (semesters : List SemesterRecord) (r : CGPAResponse),
        compute_cgpa semesters = .ok r →
        r.cgpa =
          if 0 < (r.gpa_by_semester.map GPACalcResponse.total_credits).sum then
            round3 ((r.gpa_by_semester.map GPACalcResponse.total_points).sum /
              (r.gpa_by_semester.map GPACalcResponse.total_credits).sum)
          else 0) ∧
    compute_cgpa [⟨"S1", [mkCourse "A" "Aa" 3 (some .A) none none]⟩,
                  ⟨"S2", [mkCourse "B" "Bb" 3 (some .B) none none]⟩] =
      .ok ⟨7/2, [⟨4, 12, 3⟩, ⟨3, 9, 3⟩]⟩ := by
  refine ⟨fun semesters r hr => compute_cgpa_cgpa semesters r hr, ?_⟩
  simp only [compute_cgpa, computeCgpaAux, compute_gpa, computeGpaAux, mkCourse,
    grade_to_points, GRADE_POINTS]
  norm_num [round3, round_eq]

/-- C3 witness: the credit-weighted formula instantiated at the concrete
two-semester scenario. -/
theorem compute_cgpa_credit_weighted_witness :
    ((⟨7/2, [⟨4, 12, 3⟩, ⟨3, 9, 3⟩]⟩ : CGPAResponse)).cgpa =
      if 0 < (((⟨7/2, [⟨4, 12, 3⟩, ⟨3, 9, 3⟩]⟩ : CGPAResponse)).gpa_by_semester.map
          GPACalcResponse.total_credits).sum then
        round3 ((((⟨7/2, [⟨4, 12, 3⟩, ⟨3, 9, 3⟩]⟩ : CGPAResponse)).gpa_by_semester.map
            GPACalcResponse.total_points).sum /
          (((⟨7/2, [⟨4, 12, 3⟩, ⟨3, 9, 3⟩]⟩ : CGPAResponse)).gpa_by_semester.map
            GPACalcResponse.total_credits).sum)
      else 0 :=
  compute_cgpa_credit_weighted.1 _ _ compute_cgpa_credit_weighted.2

/-! ## Advice generator lemmas -/

theorem gradedCourses_append (a b : List SemesterRecord) :
    gradedCourses (a ++ b) = gradedCourses a ++ gradedCourses b := by
  simp [gradedCourses]

theorem gradedCourses_cons (s : SemesterRecord) (rest : List SemesterRecord) :
    gradedCourses (s :: rest) =
      s.courses.filter (fun c => c.grade.isSome) ++ gradedCourses rest := by
  simp [gradedCourses]

theorem validCredits_gradedCourses (semesters : List SemesterRecord)
    (h : ∀ s ∈ semesters, validCredits s.courses) :
    validCredits (gradedCourses semesters) := by
  intro c hc hg
  simp only [gradedCourses, List.mem_filter, List.mem_flatMap] at hc
  obtain ⟨⟨s, hs, hcs⟩, _⟩ := hc
  exact h s hs c hcs hg

theorem gradedCodes_not_nodup (pre mid post : List SemesterRecord)
    (s1 s2 : SemesterRecord) (c1 c2 : Course)
    (hc1 : c1 ∈ s1.courses) (hg1 : c1.grade.isSome)
    (hc2 : c2 ∈ s2.courses) (hg2 : c2.grade.isSome)
    (hcode : c1.code = c2.code) :
    ¬ (codes (gradedCourses (pre ++ s1 :: mid ++ s2 :: post))).Nodup := by
  intro hnd
  rw [gradedCourses_append, gradedCourses_cons] at hnd
  rw [gradedCourses_append, gradedCourses_cons] at hnd
  simp only [codes, List.map_append, List.append_assoc] at hnd
  have h2 := hnd.of_append_right
  rw [List.nodup_append] at h2
  have hm1 : c1.code ∈ (s1.courses.filter (fun c => c.grade.isSome)).map Course.code :=
    List.mem_map_of_mem Course.code (List.mem_filter.mpr ⟨hc1, hg1⟩)
  have hm2 : c1.code ∈
      (gradedCourses mid).map Course.code ++
        ((s2.courses.filter (fun c => c.grade.isSome)).map Course.code ++
          (gradedCourses post).map Course.code) := by
    rw [hcode]
    exact List.mem_append_right _ (List.mem_append_left _
      (List.mem_map_of_mem Course.code (List.mem_filter.mpr ⟨hc2, hg2⟩)))
  exact h2.2.2 hm1 hm2

/-- C2: a semester history in which the same normalized course code is graded
in two different semesters (a retake) makes `generate_advice` fail with
`DuplicateCourse` — its projection step flattens every graded course of every
semester into one `compute_gpa` call — even though `compute_cgpa` succeeds on
the same history, checking duplicates only within each semester. -/
theorem generate_advice_retake_duplicate (profile : UserProfile)
    (pre mid post : List SemesterRecord) (s1 s2 : SemesterRecord)
    (c1 c2 : Course)
    (hc1 : c1 ∈ s1.courses) (hg1 : c1.grade.isSome)
    (hc2 : c2 ∈ s2.courses) (hg2 : c2.grade.isSome)
    (hcode : c1.code = c2.code)
    (hvalid : validSemesters (pre ++ s1 :: mid ++ s2 :: post))
    (htarget : (HONORS_BANDS.lookup (adviceTarget profile)).isSome) :
    (∃ d, generate_advice profile (pre ++ s1 :: mid ++ s2 :: post) =
        .error (.duplicateCourse d)) ∧
    ∃ r, compute_cgpa (pre ++ s1 :: mid ++ s2 :: post) = .ok r := by
  obtain ⟨r, hr⟩ :=
    computeCgpaAux_ok_exists (pre ++ s1 :: mid ++ s2 :: post) [] 0 0 hvalid
  have hrr : compute_cgpa (pre ++ s1 :: mid ++ s2 :: post) = .ok r := hr
  have hvc : validCredits (gradedCourses (pre ++ s1 :: mid ++ s2 :: post)) :=
    validCredits_gradedCourses _ (fun s hs => (hvalid s hs).2)
  have hdup := gradedCodes_not_nodup pre mid post s1 s2 c1 c2 hc1 hg1 hc2 hg2 hcode
  obtain ⟨d, hd⟩ := project_dup_of_dup_codes
    (gradedCourses (pre ++ s1 :: mid ++ s2 :: post))
    (max 0 (180 - ((gradedCourses (pre ++ s1 :: mid ++ s2 :: post)).map
      Course.credit_hours).sum))
    (adviceTarget profile) htarget hvc hdup
  refine ⟨⟨d, ?_⟩, ⟨r, hrr⟩⟩
  rw [generate_advice, hrr]
  simp only [hd]

/-- C2 witness: the graded code "MTH" appears in both semesters; advice fails
with a duplicate error while the CGPA computation succeeds. -/
theorem generate_advice_retake_duplicate_witness :
    (∃ d, generate_advice ⟨"u1", "User", "SE", none⟩
        [⟨"S1", [mkCourse "MTH" "Math" 3 (some .B) none none]⟩,
         ⟨"S2", [mkCourse "MTH" "Math" 3 (some .A) none none]⟩] =
        .error (.duplicateCourse d)) ∧
    ∃ r, compute_cgpa
        [⟨"S1", [mkCourse "MTH" "Math" 3 (some .B) none none]⟩,
         ⟨"S2", [mkCourse "MTH" "Math" 3 (some .A) none none]⟩] = .ok r :=
  generate_advice_retake_duplicate ⟨"u1", "User", "SE", none⟩ [] [] []
    ⟨"S1", [mkCourse "MTH" "Math" 3 (some .B) none none]⟩
    ⟨"S2", [mkCourse "MTH" "Math" 3 (some .A) none none]⟩
    (mkCourse "MTH" "Math" 3 (some .B) none none)
    (mkCourse "MTH" "Math" 3 (some .A) none none)
    (by decide) (by decide) (by decide) (by decide) (by decide)
    (by decide) (by decide)

/-- C9: in `generate_advice` the insights list begins with the optional trend
insight computed from the per-semester GPAs of nonzero-credit semesters; when
at least two such GPAs exist, a drop of more than 0.2 yields the declining
insight, a rise of more than 0.2 the improvement insight, otherwise none —
the single `Option` value and the distinctness of the two messages mean the
two insights can never both fire. -/
theorem generate_advice_trend_exclusive :
    (∀ (profile : UserProfile) (semesters : List SemesterRecord)
        (adv : AdviceResponse),
        generate_advice profile semesters = .ok adv →
        ∃ info rest, compute_cgpa semesters = .ok info ∧
          adv.insights = (trendInsight (semGpas info)).toList ++ rest) ∧
    (∀ (gs : List ℚ) (gPrev gLast : ℚ),
        trendInsight (gs ++ [gPrev, gLast]) =
          if gLast < gPrev - 1/5 then some declineMsg
          else if gLast > gPrev + 1/5 then some improveMsg
          else none) ∧
    declineMsg ≠ improveMsg := by
  refine ⟨?_, ?_, by decide⟩
  · intro profile semesters adv h
    rw [generate_advice] at h
    cases hcg : compute_cgpa semesters with
    | error e => rw [hcg] at h; cases h
    | ok info =>
        rw [hcg] at h
        simp only [] at h
        cases hp : project_needed_average (gradedCourses semesters)
            (max 0 (180 - ((gradedCourses semesters).map Course.credit_hours).sum))
            (adviceTarget profile) with
        | error e => rw [hp] at h; cases h
        | ok proj =>
            rw [hp] at h
            simp only [Except.ok.injEq] at h
            refine ⟨info, categoryInsights semesters ++ [proj.message], rfl, ?_⟩
            rw [← h]
            simp [List.append_assoc]
  · intro gs gPrev gLast
    simp [trendInsight, List.reverse_append]

/-- C9 witness: two one-course semesters with GPAs 4.0 then 3.0 (a drop of
more than 0.2): the advice output starts with the declining-performance
insight, and only that trend insight. -/
theorem generate_advice_trend_exclusive_witness :
    ∃ info rest,
      compute_cgpa [⟨"S1", [mkCourse "MTH" "Math" 3 (some .A) none none]⟩,
                    ⟨"S2", [mkCourse "PRG" "Prog" 3 (some .B) none none]⟩] =
        .ok info ∧
      ((⟨[declineMsg, neededMsg (3293/1000) "Second Class Upper"],
         fixedRecommendations, []⟩ : AdviceResponse)).insights =
        (trendInsight (semGpas info)).toList ++ rest :=
  generate_advice_trend_exclusive.1 ⟨"u1", "User", "SE", none⟩
    [⟨"S1", [mkCourse "MTH" "Math" 3 (some .A) none none]⟩,
     ⟨"S2", [mkCourse "PRG" "Prog" 3 (some .B) none none]⟩]
    ⟨[declineMsg, neededMsg (3293/1000) "Second Class Upper"],
      fixedRecommendations, []⟩
    (by
      have h1 : ("Second Class Upper" == "First Class Honors") = false := by decide
      have h2 : normalize_code "PRG" ≠ normalize_code "MTH" := by decide
      simp only [generate_advice, compute_cgpa, computeCgpaAux, compute_gpa,
        computeGpaAux, mkCourse, grade_to_points, GRADE_POINTS, semGpas,
        trendInsight, riskCoursesOf, gradedCourses, categoryScores,
        categoryInsights, adviceTarget, project_needed_average, HONORS_BANDS,
        List.lookup, riskRecommendation, fixedRecommendations]
      norm_num [round3, round_eq, max_def, min_def, h1, h2])

/-- C1 (failing input): completed = [("AB", 3 credits, grade F)], remaining
credits 3, target "First Class Honors".  The unclamped required average is
7.4 > 4.0 and the clamp makes `needed_avg_gpa` exactly 4.0, but because the
comparison `needed_avg_gpa > 4.0` is evaluated after the clamp it can never
hold, so the code produces the ordinary "you need an average GPA of ..."
message, never the "unreachable" variant. -/
theorem project_needed_average_unreachable_branch_dead :
    project_needed_average [mkCourse "AB" "ab" 3 (some .F) none none] 3
        "First Class Honors" =
      .ok ⟨"First Class Honors", 37/10, 4, neededMsg 4 "First Class Honors"⟩ ∧
    (neededMsg 4 "First Class Honors" ==
      unreachableMsg "First Class Honors") = false := by
  constructor
  · simp only [project_needed_average, HONORS_BANDS, List.lookup, compute_gpa,
      computeGpaAux, mkCourse, grade_to_points, GRADE_POINTS]
    norm_num [round3, round_eq, max_def, min_def]
  · decide

end GpaPlanner
